import Mathlib

/-!
# Verification of the Customer-Dashboard record-query engine

Shallow embedding of the client-side filtering / sorting / aggregation logic of
the dashboard repository:

* `src/unnamed/part_001` — the Orders page: `filteredOrders` (text / status /
  date / product filters plus sort) and the `stats` aggregate
  (total / cancelled / pending / highRisk).
* `src/app/routes/app.customer.jsx` — the Customers page: `filteredCustomers`
  (text / tag / country / min-order-count / last-order-before filters plus
  sort) and the unfiltered average-orders metric.
* `src/unnamed/part_002` — the Store-Health loader: order-trend and customer
  segment metrics (`inactiveCount90`, `customersNoEmail`, `refundHeavy`,
  `atRiskHighValue`).

Modelling conventions:

* ISO-8601 timestamp strings are represented by their epoch-millisecond value
  (`Int`); the JavaScript code only ever compares them via `new Date(x)`, which
  is order-isomorphic to this representation.  A well-typed ISO string is
  nonempty, so its JS truthiness coincides with presence (`Option.isSome`).
* Decimal amount strings are represented by their parsed value (`ℚ`); the code
  only reads them through `parseFloat` for comparison and addition.
* Absent / `null` JSON fields are `Option.none`.  A guarded JS access
  (`x?.f`, `x || d`) is translated with `Option` matching; an *unguarded*
  access on a possibly-absent value is translated with `jsGet`, which raises
  (returns `Except.error`) exactly when the JS code would throw a `TypeError`.
* JS `Array.prototype.sort` is stable (ECMAScript 2019); for a comparator
  derived from a key projection the stable-sorted result is unique, so it is
  modelled by `List.insertionSort` on the corresponding key relation.
-/

namespace Dashboard

/-! ## JavaScript string / number primitives -/

/-- `s.toLowerCase()` (ASCII case mapping, which covers every string the
engine compares: status enums, names, emails, tags, countries). -/
def jsToLower (s : String) : String :=
  String.mk (s.data.map Char.toLower)

/-- `s.includes(pat)` — substring containment (true for the empty pattern,
as in JS). -/
def strIncludes (s pat : String) : Bool :=
  (List.range (s.data.length + 1)).any (fun i => pat.data.isPrefixOf (s.data.drop i))

/-- JS truthiness of an optional string: `undefined`/`null` and `""` are
falsy, every other string is truthy. -/
def truthyStr : Option String → Bool
  | none => false
  | some s => s ≠ ""

/-- `parseInt(s, 10)`: skip leading whitespace, read an optional sign and the
longest digit prefix; `none` models `NaN` (no digits found). -/
def jsParseInt (s : String) : Option Int :=
  let l := s.data.dropWhile (fun c => c = ' ' ∨ c = '\t' ∨ c = '\n' ∨ c = '\r')
  let signRest : Int × List Char :=
    match l with
    | '-' :: r => (-1, r)
    | '+' :: r => (1, r)
    | r => (1, r)
  let ds := signRest.2.takeWhile Char.isDigit
  if ds.isEmpty then none
  else some (signRest.1 * (ds.foldl (fun n c => n * 10 + (c.toNat - 48)) (0 : Nat) : Nat))

/-- Unguarded JS property access on a possibly-absent value: throws a
`TypeError` (modelled as `Except.error`) when the value is `undefined`. -/
def jsGet {α : Type} (x : Option α) (msg : String) : Except String α :=
  match x with
  | some a => .ok a
  | none => .error msg

/-- `num / den > 0.1` under JS number semantics: `0 / 0` is `NaN` (every
comparison false) and `n / 0` with `n ≠ 0` is `Infinity` (greater than `0.1`).
For array-sized operands IEEE-double rounding cannot move the quotient across
the `0.1` boundary, so exact rational comparison is used otherwise. -/
def jsRatioGtTenth (num den : Nat) : Bool :=
  if den = 0 then
    if num = 0 then false else true
  else
    decide ((num : ℚ) / (den : ℚ) > 1 / 10)

/-- One day in milliseconds (`24 * 60 * 60 * 1000`), as used by the
Store-Health loader's date arithmetic. -/
def day : Int := 86400000

/-! ## Sequential effectful list traversals

`Array.prototype.filter` / `.map` evaluate their callback left to right and
propagate the first thrown exception; `filterE` / `mapE` mirror that in the
`Except` monad. -/

def filterE {ε α : Type} (p : α → Except ε Bool) : List α → Except ε (List α)
  | [] => .ok []
  | a :: l =>
    match p a with
    | .error e => .error e
    | .ok b =>
      match filterE p l with
      | .error e => .error e
      | .ok r => .ok (if b then a :: r else r)

def mapE {ε α β : Type} (f : α → Except ε β) : List α → Except ε (List β)
  | [] => .ok []
  | a :: l =>
    match f a with
    | .error e => .error e
    | .ok b =>
      match mapE f l with
      | .error e => .error e
      | .ok r => .ok (b :: r)

/-! ## Stable sorting by a key projection

`filtered.sort(comparator)` where the comparator three-way-compares a key
projection and `asc`/`desc` flips the sign (part_001 lines 134–155,
app.customer.jsx lines 123–141). -/

/-- Stable sort by `key`; any direction string other than `"asc"` behaves as
descending, exactly like the JS comparator's `sortDirection === 'asc' ? -1 : 1`. -/
def sortByKey {α K : Type} [LinearOrder K] (key : α → K) (dir : String) (l : List α) :
    List α :=
  if dir = "asc" then List.insertionSort (fun a b => key a ≤ key b) l
  else List.insertionSort (fun a b => key b ≤ key a) l

/-- Split a character list at every space, as JS `String.prototype.split(' ')`
does (`"" → [""]`, separators at the ends produce empty fields). -/
def splitSpaceAux : List Char → List Char → List (List Char)
  | [], acc => [acc.reverse]
  | c :: rest, acc =>
    if c = ' ' then acc.reverse :: splitSpaceAux rest []
    else splitSpaceAux rest (c :: acc)

/-- `s.split(' ')`. -/
def jsSplitSpace (s : String) : List String :=
  (splitSpaceAux s.data []).map String.mk

/-- `sortSelected[0].split(' ')[0]` — the sort key of a selection string. -/
def sortKeyOf (s : String) : String :=
  (jsSplitSpace s).headD ""

/-- `sortSelected[0].split(' ')[1]` — the sort direction of a selection string. -/
def sortDirOf (s : String) : String :=
  (jsSplitSpace s).getD 1 ""

/-! ## Orders page (`src/unnamed/part_001`) -/

/-- A line item node (`lineItems.edges[i].node`). -/
structure LineItem where
  title : String
  quantity : Nat
deriving Repr, DecidableEq

/-- The customer reference on an order (`order.customer`). -/
structure OrderCustomer where
  firstName : String
  lastName : String
deriving Repr, DecidableEq

/-- An order record as fetched by the `OrdersData` query.  `totalPriceSet`
flattens the `totalPriceSet?.shopMoney?.amount` chain (the code only reads the
amount, with `|| 0` fallback); `lineItems` flattens the `edges[].node`
wrapper. -/
structure OrderNode where
  id : String
  name : String
  displayFulfillmentStatus : String
  displayFinancialStatus : Option String
  processedAt : Int
  totalPriceSet : Option ℚ
  customer : Option OrderCustomer
  lineItems : Option (List LineItem)
  cancelReason : Option String
deriving Repr, DecidableEq

/-- The ephemeral UI filter state of the Orders page. -/
structure OrderQuery where
  queryValue : String
  statusFilter : List String
  dateFilter : Option Int
  productFilter : String
  sortSelected : List String
deriving Repr, DecidableEq

/-- `parseFloat(o.totalPriceSet?.shopMoney?.amount || 0)`. -/
def jsTotal (o : OrderNode) : ℚ :=
  o.totalPriceSet.getD 0

/-- Text-search rejection (part_001 lines 96–102): the lower-cased query is
nonempty and matches neither the order name nor the customer full name. -/
def orderTextExcluded (q : OrderQuery) (o : OrderNode) : Bool :=
  let orderName := jsToLower o.name
  let customerName :=
    match o.customer with
    | some c => jsToLower (c.firstName ++ " " ++ c.lastName)
    | none => ""
  let query := jsToLower q.queryValue
  query ≠ "" && !(strIncludes orderName query) && !(strIncludes customerName query)

/-- Status-filter rejection (part_001 lines 104–109): the filter set is
nonempty and does not contain the lower-cased financial status (an absent
status is `undefined`, which is never a member). -/
def orderStatusExcluded (q : OrderQuery) (o : OrderNode) : Bool :=
  q.statusFilter.length > 0 &&
    !(match o.displayFinancialStatus with
      | some s => q.statusFilter.contains (jsToLower s)
      | none => false)

/-- Date-filter rejection (part_001 lines 111–120): a filter date is set and
the order's processed date is strictly before it. -/
def orderDateExcluded (q : OrderQuery) (o : OrderNode) : Bool :=
  match q.dateFilter with
  | some d => o.processedAt < d
  | none => false

/-- The order filter predicate (part_001 lines 95–131).  The product filter
reads `order.lineItems.edges` without a guard, so it throws when `lineItems`
is absent and the filter is active. -/
def orderPasses (q : OrderQuery) (o : OrderNode) : Except String Bool :=
  if orderTextExcluded q o then .ok false
  else if orderStatusExcluded q o then .ok false
  else if orderDateExcluded q o then .ok false
  else if q.productFilter ≠ "" then
    match o.lineItems with
    | some items =>
        .ok (items.any (fun it => strIncludes (jsToLower it.title) (jsToLower q.productFilter)))
    | none => .error "TypeError: cannot read properties of undefined (reading edges)"
  else .ok true

/-- The sort step of the Orders page (part_001 lines 134–155): an empty
selection, or an unrecognized key (both comparands `undefined`, comparator
constantly `0`), leaves the filtered list untouched. -/
def orderSort (sel : List String) (l : List OrderNode) : List OrderNode :=
  match sel with
  | [] => l
  | s :: _ =>
    let k := sortKeyOf s
    let dir := sortDirOf s
    if k = "order" then sortByKey (fun o => o.name) dir l
    else if k = "date" then sortByKey (fun o => o.processedAt) dir l
    else if k = "total" then sortByKey jsTotal dir l
    else l

/-- Equality of the sort projections selected by `sel` (constantly true when
no key is active, i.e. when the comparator is constantly `0`). -/
def orderKeyEq (sel : List String) (a b : OrderNode) : Bool :=
  match sel with
  | [] => true
  | s :: _ =>
    let k := sortKeyOf s
    if k = "order" then decide (a.name = b.name)
    else if k = "date" then decide (a.processedAt = b.processedAt)
    else if k = "total" then decide (jsTotal a = jsTotal b)
    else true

/-- `filteredOrders` (part_001 lines 94–158): filter, then stable sort. -/
def applyOrders (q : OrderQuery) (orders : List OrderNode) :
    Except String (List OrderNode) :=
  (filterE (orderPasses q) orders).map (orderSort q.sortSelected)

/-- The aggregate metrics of the Orders page. -/
structure OrderStats where
  total : Nat
  cancelled : Nat
  pending : Nat
  highRisk : Bool
deriving Repr, DecidableEq

/-- `o.displayFinancialStatus === 'VOIDED' || === 'REFUNDED' || o.cancelReason`
(part_001 line 163). -/
def orderCancelledFlag (o : OrderNode) : Bool :=
  o.displayFinancialStatus == some "VOIDED" || o.displayFinancialStatus == some "REFUNDED" ||
    truthyStr o.cancelReason

/-- `stats` (part_001 lines 161–175), computed from the unfiltered batch. -/
def stats (orders : List OrderNode) : OrderStats :=
  let total := orders.length
  let cancelled := (orders.filter orderCancelledFlag).length
  let pending := (orders.filter (fun o => o.displayFinancialStatus == some "PENDING")).length
  { total := total
    cancelled := cancelled
    pending := pending
    highRisk := jsRatioGtTenth cancelled total }

/-- The Orders page engine output: visible rows plus batch metrics (the
metrics are computed from the unfiltered batch). -/
structure OrderApplyOut where
  visibleRows : Except String (List OrderNode)
  metrics : OrderStats
deriving Repr

def applyOrdersEngine (orders : List OrderNode) (q : OrderQuery) : OrderApplyOut :=
  { visibleRows := applyOrders q orders
    metrics := stats orders }

/-! ## Customers page (`src/app/routes/app.customer.jsx`) -/

/-- A customer record as fetched by the `CustomersData` query.
`defaultAddress` flattens `defaultAddress?.country` (the only field read);
`lastOrder` flattens `lastOrder?.processedAt`. -/
structure CustNode where
  id : String
  firstName : String
  lastName : String
  email : Option String
  defaultAddress : Option String
  tags : Option (List String)
  numberOfOrders : Nat
  lastOrder : Option Int
  createdAt : Int
deriving Repr, DecidableEq

/-- The ephemeral UI filter state of the Customers page.  The date filter is
a string in the source (`""` when cleared, only truthy values reach
`new Date`), hence `Option Int` here; the min-order-count filter is kept as
the raw string because the code parses it with `parseInt`. -/
structure CustQuery where
  queryValue : String
  tagFilter : String
  countryFilter : String
  itemsOrderCount : String
  lastOrderDateFilter : Option Int
  sortSelected : List String
deriving Repr, DecidableEq

/-- Text search over full name and email (app.customer.jsx lines 83–88). -/
def custTextPasses (qv : String) (c : CustNode) : Bool :=
  let fullName := jsToLower (c.firstName ++ " " ++ c.lastName)
  let email := jsToLower (c.email.getD "")
  let query := jsToLower qv
  !(query ≠ "" && !(strIncludes fullName query) && !(strIncludes email query))

/-- Tag filter (app.customer.jsx lines 90–95): substring match against any
tag, with `customer.tags || []` defaulting. -/
def custTagPasses (tf : String) (c : CustNode) : Bool :=
  if tf ≠ "" then
    (c.tags.getD []).any (fun t => strIncludes (jsToLower t) (jsToLower tf))
  else true

/-- Country filter (app.customer.jsx lines 97–102), with
`customer.defaultAddress?.country || ""` defaulting. -/
def custCountryPasses (cf : String) (c : CustNode) : Bool :=
  if cf ≠ "" then
    strIncludes (jsToLower (c.defaultAddress.getD "")) (jsToLower cf)
  else true

/-- Minimum-order-count filter (app.customer.jsx lines 104–109): a record is
rejected only when `parseInt` yields a number (`!isNaN`) and the lifetime
order count is below it. -/
def custMinOrderPasses (mo : String) (c : CustNode) : Bool :=
  if mo ≠ "" then
    match jsParseInt mo with
    | some k => !((c.numberOfOrders : Int) < k)
    | none => true
  else true

/-- Last-order-before filter (app.customer.jsx lines 111–118): a customer
without a last order passes outright; otherwise it is rejected exactly when
the last-order date is strictly after the filter date. -/
def custLastOrderPasses (lod : Option Int) (c : CustNode) : Bool :=
  match lod with
  | none => true
  | some d =>
    match c.lastOrder with
    | none => true
    | some t => !(t > d)

/-- The customer filter predicate (app.customer.jsx lines 82–121): the
early-`return false` chain is the conjunction of the five filter conjuncts. -/
def custPasses (q : CustQuery) (c : CustNode) : Bool :=
  custTextPasses q.queryValue c && custTagPasses q.tagFilter c &&
    custCountryPasses q.countryFilter c && custMinOrderPasses q.itemsOrderCount c &&
    custLastOrderPasses q.lastOrderDateFilter c

/-- `${c.firstName} ${c.lastName}`.toLowerCase() — the name sort key. -/
def custNameKey (c : CustNode) : String :=
  jsToLower (c.firstName ++ " " ++ c.lastName)

/-- The sort step of the Customers page (app.customer.jsx lines 123–141). -/
def custSort (sel : List String) (l : List CustNode) : List CustNode :=
  match sel with
  | [] => l
  | s :: _ =>
    let k := sortKeyOf s
    let dir := sortDirOf s
    if k = "name" then sortByKey custNameKey dir l
    else if k = "date" then sortByKey (fun c => c.createdAt) dir l
    else l

/-- Equality of the customer sort projections selected by `sel`. -/
def custKeyEq (sel : List String) (a b : CustNode) : Bool :=
  match sel with
  | [] => true
  | s :: _ =>
    let k := sortKeyOf s
    if k = "name" then decide (custNameKey a = custNameKey b)
    else if k = "date" then decide (a.createdAt = b.createdAt)
    else true

/-- `filteredCustomers` (app.customer.jsx lines 81–144): filter, then stable
sort.  No field access in this engine is unguarded, so it is total. -/
def applyCustomers (q : CustQuery) (customers : List CustNode) : List CustNode :=
  custSort q.sortSelected (customers.filter (custPasses q))

/-- The unfiltered average-orders metric (app.customer.jsx lines 384–386),
before the presentation-only `toFixed(1)` formatting. -/
def averageOrders (customers : List CustNode) : ℚ :=
  if customers.length > 0 then
    (customers.foldl (fun acc c => acc + (c.numberOfOrders : ℚ)) 0) / (customers.length : ℚ)
  else 0

/-- The Customers page engine output: visible rows plus the unfiltered
average-orders metric. -/
structure CustApplyOut where
  visibleRows : List CustNode
  averageOrders : ℚ
deriving Repr

def applyCustomersEngine (customers : List CustNode) (q : CustQuery) : CustApplyOut :=
  { visibleRows := applyCustomers q customers
    averageOrders := averageOrders customers }

/-! ## Store-Health loader (`src/unnamed/part_002`) -/

/-- An order node of the `StoreHealthData` query (`cancelledAt` is an ISO
timestamp or `null`; the code only tests its truthiness, and a present ISO
string is nonempty hence truthy). -/
structure HealthOrder where
  id : String
  processedAt : Int
  displayFinancialStatus : Option String
  cancelledAt : Option Int
deriving Repr, DecidableEq

/-- A nested recent-order node (`customer.orders.edges[i].node`). -/
structure HealthMiniOrder where
  displayFinancialStatus : Option String
deriving Repr, DecidableEq

/-- A customer node of the `StoreHealthData` query.  The selection set is
`id firstName lastName defaultEmailAddress{emailAddress} amountSpent{amount}
numberOfOrders lastOrder{processedAt displayFinancialStatus} orders(first:10)`.
`defaultEmailAddress` flattens to the email-address string, `amountSpent` to
its parsed amount, `lastOrder` to its processed-at date, and `orders` to the
list of nested nodes. -/
structure HealthCustomer where
  id : String
  firstName : String
  lastName : String
  defaultEmailAddress : Option String
  amountSpent : ℚ
  numberOfOrders : Nat
  lastOrder : Option Int
  orders : List HealthMiniOrder
deriving Repr, DecidableEq

/-- The `email` property of a fetched Store-Health customer node.  The
`StoreHealthData` query selects `defaultEmailAddress { emailAddress }` and
never selects `email`, so `c.email` is `undefined` on every node the loader
processes (part_002 lines 92 and 123 read it anyway). -/
def part2email (_ : HealthCustomer) : Option String :=
  none

/-- The `totalSpent` property of a fetched Store-Health customer node.  The
query selects `amountSpent { amount }` and never selects `totalSpent`, so
`c.totalSpent` is `undefined` on every node the loader processes (part_002
lines 99, 104 and 129 read it anyway), and `c.totalSpent?.amount || 0`
evaluates to `0`. -/
def part2totalSpent (_ : HealthCustomer) : Option ℚ :=
  none

/-- `ordersLast7d` (part_002 line 74). -/
def ordersLast7d (orders : List HealthOrder) (now : Int) : Nat :=
  (orders.filter (fun o => o.processedAt ≥ now - 7 * day)).length

/-- `ordersPrev7d` (part_002 lines 75–78). -/
def ordersPrev7d (orders : List HealthOrder) (now : Int) : Nat :=
  (orders.filter (fun o => o.processedAt ≥ now - 14 * day && o.processedAt < now - 7 * day)).length

/-- `cancelled30d` (part_002 lines 82–85). -/
def cancelled30d (orders : List HealthOrder) (now : Int) : Nat :=
  (orders.filter (fun o =>
    o.processedAt ≥ now - 30 * day &&
      (o.displayFinancialStatus == some "REFUNDED" || o.displayFinancialStatus == some "VOIDED" ||
        o.cancelledAt.isSome))).length

/-- `inactiveCustomers90` (part_002 lines 87–90): no last order, or a last
order strictly older than ninety days. -/
def inactiveCustomers90 (customers : List HealthCustomer) (now : Int) : List HealthCustomer :=
  customers.filter (fun c =>
    match c.lastOrder with
    | none => true
    | some t => t < now - 90 * day)

/-- `customersNoEmail` (part_002 line 92): `!c.email || c.email === ""`,
where `c.email` is the never-fetched property `part2email`. -/
def customersNoEmail (customers : List HealthCustomer) : Nat :=
  (customers.filter (fun c =>
    !(truthyStr (part2email c)) || part2email c == some "")).length

/-- The refund-heavy test (part_002 lines 94–97): strictly more than one
nested order with status `REFUNDED` or `PARTIALLY_REFUNDED`. -/
def refundHeavyFlag (c : HealthCustomer) : Bool :=
  (c.orders.filter (fun o =>
    o.displayFinancialStatus == some "REFUNDED" ||
      o.displayFinancialStatus == some "PARTIALLY_REFUNDED")).length > 1

/-- `refundHeavyCustomers` (part_002 lines 94–97). -/
def refundHeavyCustomers (customers : List HealthCustomer) : List HealthCustomer :=
  customers.filter refundHeavyFlag

/-- `totalSpentSum` (part_002 line 99): folds
`parseFloat(c.totalSpent?.amount || 0)` over the batch — constantly `0` per
node because `totalSpent` is never fetched. -/
def totalSpentSum (customers : List HealthCustomer) : ℚ :=
  customers.foldl (fun acc c => acc + (part2totalSpent c).getD 0) 0

/-- `avgSpent` (part_002 line 100): `totalSpentSum / (customers.length || 1)` —
a zero length is falsy and falls back to `1`. -/
def avgSpent (customers : List HealthCustomer) : ℚ :=
  totalSpentSum customers / (if customers.length = 0 then 1 else (customers.length : ℚ))

/-- `atRiskHighValue` (part_002 lines 102–107): requires a last order, spend
(read through the never-fetched `totalSpent`) above `avgSpent`, and a last
order strictly older than sixty days. -/
def atRiskHighValue (customers : List HealthCustomer) (now : Int) : List HealthCustomer :=
  customers.filter (fun c =>
    match c.lastOrder with
    | none => false
    | some t =>
      decide ((part2totalSpent c).getD 0 > avgSpent customers) && decide (t < now - 60 * day))

/-- The scalar metrics object returned by the Store-Health loader (part_002
lines 110–118; the presentation-only `orderTrendPercent` string formatting is
omitted). -/
structure HealthMetrics where
  ordersLast7d : Nat
  ordersPrev7d : Nat
  orderTrend : Int
  cancelled30d : Nat
  inactiveCount90 : Nat
  customersNoEmail : Nat
deriving Repr, DecidableEq

def healthMetrics (customers : List HealthCustomer) (orders : List HealthOrder)
    (now : Int) : HealthMetrics :=
  { ordersLast7d := ordersLast7d orders now
    ordersPrev7d := ordersPrev7d orders now
    orderTrend := (ordersLast7d orders now : Int) - (ordersPrev7d orders now : Int)
    cancelled30d := cancelled30d orders now
    inactiveCount90 := (inactiveCustomers90 customers now).length
    customersNoEmail := customersNoEmail customers }

/-- A row of the refund-heavy list (part_002 lines 120–125). -/
structure RefundRow where
  id : String
  name : String
  email : Option String
  refunds : Nat
deriving Repr, DecidableEq

/-- The refund count of one refund-heavy row (part_002 line 124):
`c.orders.edges.filter(o => o.node.displayFinancialStatus.includes('REFUNDED'))`
— an unguarded `.includes` on a possibly-absent status, which throws when the
status is `null`. -/
def refundsOfE (c : HealthCustomer) : Except String Nat :=
  match filterE (fun o =>
    (jsGet o.displayFinancialStatus
      "TypeError: cannot read properties of null (reading includes)").map
      (fun st => strIncludes st "REFUNDED")) c.orders with
  | .error e => .error e
  | .ok fl => .ok fl.length

/-- `lists.refundHeavy` (part_002 lines 120–125). -/
def refundHeavyListE (customers : List HealthCustomer) : Except String (List RefundRow) :=
  mapE (fun c =>
    (refundsOfE c).map (fun r =>
      { id := c.id
        name := c.firstName ++ " " ++ c.lastName
        email := part2email c
        refunds := r : RefundRow }))
    (refundHeavyCustomers customers)

/-- A row of the at-risk list (part_002 lines 126–131). -/
structure AtRiskRow where
  id : String
  name : String
  spent : Option ℚ
  lastOrder : Int
deriving Repr, DecidableEq

/-- `lists.atRiskHighValue` (part_002 lines 126–131): `c.lastOrder.processedAt`
is read without a guard, which the filter's `!c.lastOrder` early-`false`
makes safe. -/
def atRiskListE (customers : List HealthCustomer) (now : Int) :
    Except String (List AtRiskRow) :=
  mapE (fun c =>
    (jsGet c.lastOrder
      "TypeError: cannot read properties of null (reading processedAt)").map
      (fun t =>
        { id := c.id
          name := c.firstName ++ " " ++ c.lastName
          spent := part2totalSpent c
          lastOrder := t : AtRiskRow }))
    (atRiskHighValue customers now)

/-! ## Specification-side definitions

These follow the specification's words, for comparison against the
source-derived functions above. -/

/-- Batch-average spend as the specification words it: total spend across the
batch divided by batch size, `0` for an empty batch. -/
def specAvgSpent (customers : List HealthCustomer) : ℚ :=
  if customers.length = 0 then 0
  else (customers.foldl (fun acc c => acc + c.amountSpent) 0) / (customers.length : ℚ)

/-- The at-risk high-value segment as the specification words it: has a last
order, fetched lifetime amount spent strictly above the batch-average spend,
and a last-order timestamp more than sixty days before `now`. -/
def specAtRiskHighValue (customers : List HealthCustomer) (now : Int) :
    List HealthCustomer :=
  customers.filter (fun c =>
    match c.lastOrder with
    | none => false
    | some t =>
      decide (c.amountSpent > specAvgSpent customers) && decide (t < now - 60 * day))

/-- The missing-email count as the specification words it: customers whose
fetched email address is absent or the empty string. -/
def specMissingEmailCount (customers : List HealthCustomer) : Nat :=
  (customers.filter (fun c =>
    c.defaultEmailAddress == none || c.defaultEmailAddress == some "")).length

/-- The cancelled-or-refunded test as the specification words it: financial
status `REFUNDED` or `VOIDED`, or a cancellation reason is present. -/
def specCancelledOrRefunded (o : OrderNode) : Bool :=
  o.displayFinancialStatus == some "REFUNDED" || o.displayFinancialStatus == some "VOIDED" ||
    truthyStr o.cancelReason

/-! ## Concrete demonstration inputs -/

/-- A reference "now" for the Store-Health metrics: day 200. -/
def demoNow : Int := 200 * day

/-- A high-spend customer (fetched `amountSpent` 200) whose last order is 150
days before `demoNow`. -/
def demoHealthCustomerA : HealthCustomer :=
  { id := "gid://shopify/Customer/1"
    firstName := "Ada"
    lastName := "Lovelace"
    defaultEmailAddress := some "ada@example.com"
    amountSpent := 200
    numberOfOrders := 5
    lastOrder := some (50 * day)
    orders := [] }

/-- A zero-spend customer whose last order is 150 days before `demoNow`. -/
def demoHealthCustomerB : HealthCustomer :=
  { id := "gid://shopify/Customer/2"
    firstName := "Bob"
    lastName := "Smith"
    defaultEmailAddress := none
    amountSpent := 0
    numberOfOrders := 1
    lastOrder := some (50 * day)
    orders := [] }

/-- A sparse but well-typed order: its optional line-items list is absent. -/
def demoOrderNoItems : OrderNode :=
  { id := "gid://shopify/Order/1"
    name := "#1001"
    displayFulfillmentStatus := "UNFULFILLED"
    displayFinancialStatus := some "PAID"
    processedAt := 100 * day
    totalPriceSet := some 50
    customer := none
    lineItems := none
    cancelReason := none }

/-- An order carrying one line item. -/
def demoOrderWithItems : OrderNode :=
  { id := "gid://shopify/Order/2"
    name := "#1002"
    displayFulfillmentStatus := "FULFILLED"
    displayFinancialStatus := some "PAID"
    processedAt := 120 * day
    totalPriceSet := some 75
    customer := some { firstName := "Ada", lastName := "Lovelace" }
    lineItems := some [{ title := "Mug", quantity := 2 }]
    cancelReason := none }

/-- An order query with only the product filter active. -/
def demoProductQuery : OrderQuery :=
  { queryValue := ""
    statusFilter := []
    dateFilter := none
    productFilter := "mug"
    sortSelected := [] }

/-- An order query with no filters and the default `date desc` sort. -/
def demoSortQuery : OrderQuery :=
  { queryValue := ""
    statusFilter := []
    dateFilter := none
    productFilter := ""
    sortSelected := ["date desc"] }

/-- A customer record with three lifetime orders. -/
def demoCustomer : CustNode :=
  { id := "gid://shopify/Customer/3"
    firstName := "Cara"
    lastName := "Jones"
    email := some "cara@example.com"
    defaultAddress := some "Canada"
    tags := some ["vip"]
    numberOfOrders := 3
    lastOrder := none
    createdAt := 10 * day }

/-- A customer query with no filters and the default `date desc` sort. -/
def demoCustQuery : CustQuery :=
  { queryValue := ""
    tagFilter := ""
    countryFilter := ""
    itemsOrderCount := ""
    lastOrderDateFilter := none
    sortSelected := ["date desc"] }

/-! ## The engine as one function of all its inputs

The only ambient state any engine code reads is the clock (`new Date()` in the
Store-Health loader); bundling it with the batches and queries makes every
computation a function of an explicit input value. -/

structure EngineInput where
  orderBatch : List OrderNode
  orderQuery : OrderQuery
  customerBatch : List CustNode
  customerQuery : CustQuery
  healthCustomers : List HealthCustomer
  healthOrders : List HealthOrder
  now : Int

structure EngineOutput where
  ordersOut : OrderApplyOut
  customersOut : CustApplyOut
  health : HealthMetrics
  refundHeavy : Except String (List RefundRow)
  atRisk : Except String (List AtRiskRow)

def engineRun (i : EngineInput) : EngineOutput :=
  { ordersOut := applyOrdersEngine i.orderBatch i.orderQuery
    customersOut := applyCustomersEngine i.customerBatch i.customerQuery
    health := healthMetrics i.healthCustomers i.healthOrders i.now
    refundHeavy := refundHeavyListE i.healthCustomers
    atRisk := atRiskListE i.healthCustomers i.now }

def demoEngineInput : EngineInput :=
  { orderBatch := [demoOrderWithItems]
    orderQuery := demoSortQuery
    customerBatch := [demoCustomer]
    customerQuery := demoCustQuery
    healthCustomers := [demoHealthCustomerA]
    healthOrders := []
    now := demoNow }

/-! ## Helper lemmas: effectful traversals -/

theorem filterE_ok_of_all {ε α : Type} (p : α → Except ε Bool) :
    ∀ l : List α, (∀ a ∈ l, p a = .ok true) → filterE p l = .ok l := by
  intro l h
  induction l with
  | nil => rfl
  | cons a t ih =>
    have ha : p a = .ok true := h a (by simp)
    have ht : filterE p t = .ok t := ih (fun x hx => h x (by simp [hx]))
    simp [filterE, ha, ht]

theorem filterE_mem_ok {ε α : Type} (p : α → Except ε Bool) :
    ∀ l fl : List α, filterE p l = .ok fl → ∀ a ∈ fl, p a = .ok true := by
  intro l
  induction l with
  | nil =>
    intro fl h a ha
    simp [filterE] at h
    subst h
    simp at ha
  | cons x t ih =>
    intro fl h a ha
    unfold filterE at h
    cases hx : p x with
    | error e => rw [hx] at h; cases h
    | ok b =>
      rw [hx] at h
      cases hrec : filterE p t with
      | error e => rw [hrec] at h; cases h
      | ok r =>
        rw [hrec] at h
        cases h
        cases b with
        | true =>
          rcases List.mem_cons.mp ha with rfl | har
          · exact hx
          · exact ih r hrec a har
        | false => exact ih r hrec a ha

theorem filterE_ok_exists {ε α : Type} (p : α → Except ε Bool) :
    ∀ l : List α, (∀ a ∈ l, ∃ b, p a = .ok b) → ∃ fl, filterE p l = .ok fl := by
  intro l h
  induction l with
  | nil => exact ⟨[], rfl⟩
  | cons a t ih =>
    obtain ⟨b, hb⟩ := h a (by simp)
    obtain ⟨fl, hfl⟩ := ih (fun x hx => h x (by simp [hx]))
    exact ⟨if b then a :: fl else fl, by simp [filterE, hb, hfl]⟩

theorem mapE_ok_exists {ε α β : Type} (f : α → Except ε β) :
    ∀ l : List α, (∀ a ∈ l, ∃ b, f a = .ok b) → ∃ r, mapE f l = .ok r := by
  intro l h
  induction l with
  | nil => exact ⟨[], rfl⟩
  | cons a t ih =>
    obtain ⟨b, hb⟩ := h a (by simp)
    obtain ⟨r, hr⟩ := ih (fun x hx => h x (by simp [hx]))
    exact ⟨b :: r, by simp [mapE, hb, hr]⟩

/-! ## Helper lemmas: stable sorting

Stability is expressed by preservation of the subsequence of records carrying
any one sort-key value: inserting and sorting never reorders records whose
keys are equal. -/

theorem orderedInsert_filter_keyEq {α K : Type} (key : α → K)
    (r : α → α → Prop) [DecidableRel r] (hr : ∀ a b, key a = key b → r a b)
    (p : α → Bool) (k : K) (hp : ∀ y, p y = true ↔ key y = k) (a : α) :
    ∀ l : List α,
      (List.orderedInsert r a l).filter p =
        if p a then a :: l.filter p else l.filter p := by
  intro l
  induction l with
  | nil =>
    by_cases hak : p a <;> simp [List.orderedInsert, hak]
  | cons b t ih =>
    by_cases hrab : r a b
    · rw [List.orderedInsert, if_pos hrab]
      by_cases hak : p a <;> simp [List.filter_cons, hak]
    · rw [List.orderedInsert, if_neg hrab]
      by_cases hak : p a = true
      · have hbk : p b = false := by
          rw [Bool.eq_false_iff]
          intro hb
          exact hrab (hr a b (((hp a).mp hak).trans ((hp b).mp hb).symm))
        simp [List.filter_cons, hak, hbk, ih]
      · by_cases hbk : p b = true <;>
          simp [List.filter_cons, hak, hbk, ih]

theorem insertionSort_filter_keyEq {α K : Type} (key : α → K)
    (r : α → α → Prop) [DecidableRel r] (hr : ∀ a b, key a = key b → r a b)
    (p : α → Bool) (k : K) (hp : ∀ y, p y = true ↔ key y = k) :
    ∀ l : List α,
      (List.insertionSort r l).filter p = l.filter p := by
  intro l
  induction l with
  | nil => rfl
  | cons a t ih =>
    rw [List.insertionSort, orderedInsert_filter_keyEq key r hr p k hp a _, ih]
    by_cases hak : p a <;> simp [List.filter_cons, hak]

theorem sortByKey_filter_keyEq {α K : Type} [LinearOrder K] (key : α → K)
    (dir : String) (p : α → Bool) (k : K) (hp : ∀ y, p y = true ↔ key y = k)
    (l : List α) :
    (sortByKey key dir l).filter p = l.filter p := by
  unfold sortByKey
  by_cases hdir : dir = "asc"
  · rw [if_pos hdir]
    exact insertionSort_filter_keyEq key _ (fun a b h => le_of_eq h) p k hp l
  · rw [if_neg hdir]
    exact insertionSort_filter_keyEq key _ (fun a b h => le_of_eq h.symm) p k hp l

theorem sortByKey_perm {α K : Type} [LinearOrder K] (key : α → K) (dir : String)
    (l : List α) : (sortByKey key dir l).Perm l := by
  unfold sortByKey
  by_cases hdir : dir = "asc"
  · rw [if_pos hdir]; exact List.perm_insertionSort _ l
  · rw [if_neg hdir]; exact List.perm_insertionSort _ l

theorem sortByKey_idem {α K : Type} [LinearOrder K] (key : α → K) (dir : String)
    (l : List α) : sortByKey key dir (sortByKey key dir l) = sortByKey key dir l := by
  unfold sortByKey
  by_cases hdir : dir = "asc"
  · rw [if_pos hdir, if_pos hdir]
    haveI : IsTotal α (fun a b => key a ≤ key b) := ⟨fun a b => le_total (key a) (key b)⟩
    haveI : IsTrans α (fun a b => key a ≤ key b) := ⟨fun _ _ _ h1 h2 => le_trans h1 h2⟩
    exact List.Sorted.insertionSort_eq (List.sorted_insertionSort _ l)
  · rw [if_neg hdir, if_neg hdir]
    haveI : IsTotal α (fun a b => key b ≤ key a) := ⟨fun a b => le_total (key b) (key a)⟩
    haveI : IsTrans α (fun a b => key b ≤ key a) := ⟨fun _ _ _ h1 h2 => le_trans h2 h1⟩
    exact List.Sorted.insertionSort_eq (List.sorted_insertionSort _ l)

theorem orderSort_perm (sel : List String) (l : List OrderNode) :
    (orderSort sel l).Perm l := by
  cases sel with
  | nil => exact List.Perm.refl l
  | cons s rest =>
    unfold orderSort
    by_cases h1 : sortKeyOf s = "order"
    · simp only [h1, if_pos]; exact sortByKey_perm _ _ l
    · by_cases h2 : sortKeyOf s = "date"
      · simp only [h1, h2, if_neg, if_pos, reduceIte]; exact sortByKey_perm _ _ l
      · by_cases h3 : sortKeyOf s = "total"
        · simp only [h1, h2, h3, reduceIte]; exact sortByKey_perm _ _ l
        · simp only [h1, h2, h3, reduceIte]; exact List.Perm.refl l

theorem orderSort_idem (sel : List String) (l : List OrderNode) :
    orderSort sel (orderSort sel l) = orderSort sel l := by
  cases sel with
  | nil => rfl
  | cons s rest =>
    unfold orderSort
    by_cases h1 : sortKeyOf s = "order"
    · simp only [h1, reduceIte]; exact sortByKey_idem _ _ l
    · by_cases h2 : sortKeyOf s = "date"
      · simp only [h1, h2, reduceIte]; exact sortByKey_idem _ _ l
      · by_cases h3 : sortKeyOf s = "total"
        · simp only [h1, h2, h3, reduceIte]; exact sortByKey_idem _ _ l
        · simp only [h1, h2, h3, reduceIte]

theorem custSort_perm (sel : List String) (l : List CustNode) :
    (custSort sel l).Perm l := by
  cases sel with
  | nil => exact List.Perm.refl l
  | cons s rest =>
    unfold custSort
    by_cases h1 : sortKeyOf s = "name"
    · simp only [h1, reduceIte]; exact sortByKey_perm _ _ l
    · by_cases h2 : sortKeyOf s = "date"
      · simp only [h1, h2, reduceIte]; exact sortByKey_perm _ _ l
      · simp only [h1, h2, reduceIte]; exact List.Perm.refl l

theorem custSort_idem (sel : List String) (l : List CustNode) :
    custSort sel (custSort sel l) = custSort sel l := by
  cases sel with
  | nil => rfl
  | cons s rest =>
    unfold custSort
    by_cases h1 : sortKeyOf s = "name"
    · simp only [h1, reduceIte]; exact sortByKey_idem _ _ l
    · by_cases h2 : sortKeyOf s = "date"
      · simp only [h1, h2, reduceIte]; exact sortByKey_idem _ _ l
      · simp only [h1, h2, reduceIte]

/-! ## Helper lemmas: the Store-Health field-selection slips -/

/-- The spend fold adds the constant `0` per node (`totalSpent` is never
fetched), so the sum is `0` for every batch. -/
theorem totalSpentSum_eq_zero : ∀ customers, totalSpentSum customers = 0 := by
  have haux : ∀ (cs : List HealthCustomer) (acc : ℚ),
      List.foldl (fun acc c => acc + (part2totalSpent c).getD 0) acc cs = acc := by
    intro cs
    induction cs with
    | nil => intro acc; rfl
    | cons c t ih => intro acc; simp [part2totalSpent, ih]
  intro customers
  unfold totalSpentSum
  exact haux customers 0

theorem avgSpent_eq_zero : ∀ customers, avgSpent customers = 0 := by
  intro customers
  unfold avgSpent
  rw [totalSpentSum_eq_zero]
  exact zero_div _

/-- Because the code reads the never-fetched `totalSpent`, every customer's
spend compares as `0 > 0` and the at-risk list is empty for every batch. -/
theorem atRiskHighValue_eq_nil : ∀ customers now, atRiskHighValue customers now = [] := by
  intro customers now
  unfold atRiskHighValue
  rw [List.filter_eq_nil_iff]
  intro c _
  cases h : c.lastOrder with
  | none => simp
  | some t => simp [part2totalSpent, avgSpent_eq_zero]

/-- Because the code reads the never-fetched `email`, every customer counts
as email-less and the metric equals the batch size. -/
theorem customersNoEmail_eq_length : ∀ customers,
    customersNoEmail customers = customers.length := by
  intro customers
  unfold customersNoEmail
  simp [part2email, truthyStr]

/-! ## Helper lemmas: the two engine sort steps -/

theorem orderSort_filter_keyEq (sel : List String) (l : List OrderNode) (x : OrderNode) :
    (orderSort sel l).filter (fun z => orderKeyEq sel z x) =
      l.filter (fun z => orderKeyEq sel z x) := by
  cases sel with
  | nil => rfl
  | cons s rest =>
    simp only [orderSort, orderKeyEq]
    by_cases h1 : sortKeyOf s = "order"
    · simp only [h1, reduceIte]
      exact sortByKey_filter_keyEq (fun o => o.name) (sortDirOf s)
        (fun z => decide (z.name = x.name)) x.name (fun y => by simp) l
    · by_cases h2 : sortKeyOf s = "date"
      · simp only [h1, h2, reduceIte]
        exact sortByKey_filter_keyEq (fun o => o.processedAt) (sortDirOf s)
          (fun z => decide (z.processedAt = x.processedAt)) x.processedAt (fun y => by simp) l
      · by_cases h3 : sortKeyOf s = "total"
        · simp only [h1, h2, h3, reduceIte]
          exact sortByKey_filter_keyEq jsTotal (sortDirOf s)
            (fun z => decide (jsTotal z = jsTotal x)) (jsTotal x) (fun y => by simp) l
        · simp only [h1, h2, h3, reduceIte]

theorem custSort_filter_keyEq (sel : List String) (l : List CustNode) (x : CustNode) :
    (custSort sel l).filter (fun z => custKeyEq sel z x) =
      l.filter (fun z => custKeyEq sel z x) := by
  cases sel with
  | nil => rfl
  | cons s rest =>
    simp only [custSort, custKeyEq]
    by_cases h1 : sortKeyOf s = "name"
    · simp only [h1, reduceIte]
      exact sortByKey_filter_keyEq custNameKey (sortDirOf s)
        (fun z => decide (custNameKey z = custNameKey x)) (custNameKey x) (fun y => by simp) l
    · by_cases h2 : sortKeyOf s = "date"
      · simp only [h1, h2, reduceIte]
        exact sortByKey_filter_keyEq (fun c => c.createdAt) (sortDirOf s)
          (fun z => decide (z.createdAt = x.createdAt)) x.createdAt (fun y => by simp) l
      · simp only [h1, h2, reduceIte]

/-! ## Helper lemmas: re-running the engine on its own output -/

theorem applyOrders_restart (q : OrderQuery) (B out : List OrderNode)
    (h : applyOrders q B = .ok out) : applyOrders q out = .ok out := by
  unfold applyOrders at h ⊢
  cases hfl : filterE (orderPasses q) B with
  | error e => rw [hfl] at h; simp [Except.map] at h
  | ok fl =>
    rw [hfl] at h
    have hout : orderSort q.sortSelected fl = out := by
      simpa [Except.map] using h
    have hmem : ∀ a ∈ out, orderPasses q a = .ok true := by
      intro a ha
      apply filterE_mem_ok _ B fl hfl
      exact ((orderSort_perm q.sortSelected fl).mem_iff).mp (by rw [hout]; exact ha)
    rw [filterE_ok_of_all _ out hmem]
    simp only [Except.map]
    rw [← hout, orderSort_idem]

theorem applyCustomers_restart (q : CustQuery) (B : List CustNode) :
    applyCustomers q (applyCustomers q B) = applyCustomers q B := by
  unfold applyCustomers
  have hfix : (custSort q.sortSelected (B.filter (custPasses q))).filter (custPasses q) =
      custSort q.sortSelected (B.filter (custPasses q)) := by
    rw [List.filter_eq_self]
    intro a ha
    exact List.of_mem_filter ((custSort_perm q.sortSelected _).mem_iff.mp ha)
  rw [hfix, custSort_idem]

/-! ## Helper lemmas: totality on sparse records -/

theorem orderPasses_isOk (q : OrderQuery) (o : OrderNode) (h : o.lineItems ≠ none) :
    ∃ b, orderPasses q o = .ok b := by
  obtain ⟨items, hi⟩ := Option.ne_none_iff_exists'.mp h
  unfold orderPasses
  rw [hi]
  split_ifs <;> exact ⟨_, rfl⟩

theorem applyOrders_isOk (q : OrderQuery) (B : List OrderNode)
    (h : ∀ o ∈ B, o.lineItems ≠ none) : ∃ v, applyOrders q B = .ok v := by
  obtain ⟨fl, hfl⟩ := filterE_ok_exists (orderPasses q) B (fun o ho => orderPasses_isOk q o (h o ho))
  exact ⟨orderSort q.sortSelected fl, by unfold applyOrders; rw [hfl]; rfl⟩

theorem refundsOfE_isOk (c : HealthCustomer)
    (h : ∀ mo ∈ c.orders, mo.displayFinancialStatus ≠ none) :
    ∃ n, refundsOfE c = .ok n := by
  obtain ⟨fl, hfl⟩ := filterE_ok_exists (fun o =>
      (jsGet o.displayFinancialStatus
        "TypeError: cannot read properties of null (reading includes)").map
        (fun st => strIncludes st "REFUNDED")) c.orders (by
    intro o ho
    obtain ⟨s, hs⟩ := Option.ne_none_iff_exists'.mp (h o ho)
    exact ⟨strIncludes s "REFUNDED", by dsimp only; rw [hs]; rfl⟩)
  exact ⟨fl.length, by unfold refundsOfE; rw [hfl]⟩

theorem refundHeavyListE_isOk (customers : List HealthCustomer)
    (h : ∀ c ∈ customers, ∀ mo ∈ c.orders, mo.displayFinancialStatus ≠ none) :
    ∃ rh, refundHeavyListE customers = .ok rh := by
  apply mapE_ok_exists
  intro c hc
  obtain ⟨n, hn⟩ := refundsOfE_isOk c (h c (List.mem_of_mem_filter hc))
  exact ⟨_, by rw [hn]; rfl⟩

theorem atRiskListE_isOk (customers : List HealthCustomer) (now : Int) :
    ∃ ar, atRiskListE customers now = .ok ar := by
  unfold atRiskListE
  rw [atRiskHighValue_eq_nil]
  exact ⟨[], rfl⟩

/-! ## Helper lemmas: the high-risk ratio -/

theorem jsRatioGtTenth_iff (num den : Nat) (h : num ≤ den) :
    jsRatioGtTenth num den = true ↔ (num : ℚ) / (den : ℚ) > 1 / 10 := by
  unfold jsRatioGtTenth
  by_cases h0 : den = 0
  · have hn : num = 0 := by omega
    subst hn
    rw [if_pos h0, if_pos rfl, h0]
    norm_num
  · rw [if_neg h0]
    simp

theorem stats_total (orders : List OrderNode) : (stats orders).total = orders.length := rfl

theorem stats_cancelled (orders : List OrderNode) :
    (stats orders).cancelled = (orders.filter orderCancelledFlag).length := rfl

theorem stats_pending (orders : List OrderNode) :
    (stats orders).pending =
      (orders.filter (fun o => o.displayFinancialStatus == some "PENDING")).length := rfl

theorem stats_highRisk (orders : List OrderNode) :
    (stats orders).highRisk =
      jsRatioGtTenth (orders.filter orderCancelledFlag).length orders.length := rfl

/-! ## Claim theorems -/

/-- C1: the claim fails on the code.  The `StoreHealthData` query fetches
`amountSpent` but the loader reads the never-fetched `totalSpent`, so every
spend compares as `0 > 0` and the at-risk high-value list is empty for every
batch — here including customer A, who has a last order, spend `200` strictly
above the batch average `100`, and a last order 150 days old, and so must be
listed according to the claim (as `specAtRiskHighValue` shows). -/
theorem atRisk_highValue_list_code_bug :
    atRiskHighValue [demoHealthCustomerA, demoHealthCustomerB] demoNow = [] ∧
    specAtRiskHighValue [demoHealthCustomerA, demoHealthCustomerB] demoNow =
      [demoHealthCustomerA] := by
  refine ⟨atRiskHighValue_eq_nil _ _, ?_⟩
  have h1 : specAvgSpent [demoHealthCustomerA, demoHealthCustomerB] = 100 := by
    simp [specAvgSpent, demoHealthCustomerA, demoHealthCustomerB]
    norm_num
  simp only [specAtRiskHighValue, h1]
  norm_num [demoHealthCustomerA, demoHealthCustomerB, demoNow, day]

/-- C2: the claim fails on the code.  The query fetches
`defaultEmailAddress { emailAddress }` but the loader counts `!c.email`,
reading the never-fetched `email` property, so the metric always equals the
batch size — here `1` for a single customer who *has* an email address,
whereas the claim requires `0` (as `specMissingEmailCount` shows). -/
theorem missing_email_metric_code_bug :
    customersNoEmail [demoHealthCustomerA] = 1 ∧
    specMissingEmailCount [demoHealthCustomerA] = 0 := by
  constructor
  · rw [customersNoEmail_eq_length]; rfl
  · decide

/-- C3: for a fixed batch, the aggregate metrics of both query-taking engines
(order total/cancelled/pending/highRisk, customer average orders) are
identical under any two queries: they are computed from the unfiltered batch
only.  (The part_002 segment counts take no query input at all — see
`healthMetrics`, a function of the batches and the clock only.) -/
theorem metrics_query_independent (OB : List OrderNode) (q1 q2 : OrderQuery)
    (CB : List CustNode) (cq1 cq2 : CustQuery) :
    (applyOrdersEngine OB q1).metrics = (applyOrdersEngine OB q2).metrics ∧
    (applyCustomersEngine CB cq1).averageOrders =
      (applyCustomersEngine CB cq2).averageOrders :=
  ⟨rfl, rfl⟩

/-- C4: the order batch metrics are: total = batch size; cancelled = number of
orders with status `REFUNDED` or `VOIDED` or carrying a cancellation reason;
pending = number of `PENDING` orders; `highRisk` holds exactly when
cancelled / total exceeds one tenth; and an empty batch yields
`highRisk = false` rather than an error. -/
theorem order_stats_characterisation (orders : List OrderNode) :
    (stats orders).total = orders.length ∧
    (stats orders).cancelled = (orders.filter specCancelledOrRefunded).length ∧
    (stats orders).pending =
      (orders.filter (fun o => o.displayFinancialStatus == some "PENDING")).length ∧
    ((stats orders).highRisk = true ↔
      ((stats orders).cancelled : ℚ) / ((stats orders).total : ℚ) > 1 / 10) ∧
    (stats ([] : List OrderNode)).highRisk = false := by
  refine ⟨rfl, ?_, rfl, ?_, by decide⟩
  · rw [stats_cancelled]
    apply congrArg List.length
    apply List.filter_congr
    intro o _
    unfold orderCancelledFlag specCancelledOrRefunded
    rw [Bool.or_comm (o.displayFinancialStatus == some "VOIDED")]
  · rw [stats_cancelled, stats_total, stats_highRisk]
    exact jsRatioGtTenth_iff _ _ (List.length_filter_le _ _)

/-- C5 counterexample: the claim as stated is false.  A well-typed order whose
optional line-items list is absent makes the product filter read
`order.lineItems.edges` on `undefined`, so the engine raises instead of
returning normally. -/
theorem engine_raises_on_absent_lineItems :
    applyOrders demoProductQuery [demoOrderNoItems] =
      .error "TypeError: cannot read properties of undefined (reading edges)" := by
  rfl

/-- C5 as amended: every engine operation returns normally on well-typed
sparse records — absent customer reference, email, default address, last
order, tags, amounts and top-level financial statuses all degrade to
defaults — *provided* each order's line-items list is present and each
customer's nested recent-order financial statuses are present (the two
accesses the code leaves unguarded). -/
theorem engine_total_on_guarded_sparse_records (q : OrderQuery) (OB : List OrderNode)
    (CB : List HealthCustomer) (now : Int)
    (hOB : ∀ o ∈ OB, o.lineItems ≠ none)
    (hCB : ∀ c ∈ CB, ∀ mo ∈ c.orders, mo.displayFinancialStatus ≠ none) :
    (∃ v, applyOrders q OB = .ok v) ∧
    (∃ rh, refundHeavyListE CB = .ok rh) ∧
    (∃ ar, atRiskListE CB now = .ok ar) :=
  ⟨applyOrders_isOk q OB hOB, refundHeavyListE_isOk CB hCB, atRiskListE_isOk CB now⟩

theorem engine_total_on_guarded_sparse_records_witness :
    (∃ v, applyOrders demoSortQuery [demoOrderWithItems] = .ok v) ∧
    (∃ rh, refundHeavyListE [demoHealthCustomerA] = .ok rh) ∧
    (∃ ar, atRiskListE [demoHealthCustomerA] demoNow = .ok ar) :=
  engine_total_on_guarded_sparse_records demoSortQuery [demoOrderWithItems]
    [demoHealthCustomerA] demoNow (by decide) (by decide)

/-- C6 counterexample: the claim as stated is false.  The Store-Health
metrics read the ambient clock (`new Date()`), so two invocations on the
identical batch and query, made at different times, give different metrics:
a customer whose last order is at day 50 is not yet 90-days-inactive at day
100 but is at day 200. -/
theorem health_metrics_time_dependent :
    healthMetrics [demoHealthCustomerA] [] (100 * day) ≠
      healthMetrics [demoHealthCustomerA] [] demoNow := by
  intro h
  have h90 : (healthMetrics [demoHealthCustomerA] [] (100 * day)).inactiveCount90 =
      (healthMetrics [demoHealthCustomerA] [] demoNow).inactiveCount90 := by rw [h]
  have e1 : (healthMetrics [demoHealthCustomerA] [] (100 * day)).inactiveCount90 = 0 := by
    decide
  have e2 : (healthMetrics [demoHealthCustomerA] [] demoNow).inactiveCount90 = 1 := by
    decide
  rw [e1, e2] at h90
  cases h90

/-- C6 as amended: the engine performs no I/O and has no mutable state; it is
deterministic once the clock reading is counted among its inputs — equal
(batches, queries, now) give equal visible rows and equal metrics.  (The
filtered rows and the order-batch stats do not read the clock at all; only
the part_002 health metrics and segment lists do.) -/
theorem engine_deterministic_in_all_inputs (i j : EngineInput) (h : i = j) :
    engineRun i = engineRun j := by
  rw [h]

theorem engine_deterministic_in_all_inputs_witness :
    engineRun demoEngineInput = engineRun demoEngineInput :=
  engine_deterministic_in_all_inputs demoEngineInput demoEngineInput rfl

/-- C7: with the last-order-before filter active, a customer passes that
filter exactly when it has no last order at all (absence passes), or its
last-order timestamp is at most the filter date (inclusive upper bound). -/
theorem last_order_before_filter_characterisation (d : Int) (c : CustNode) :
    custLastOrderPasses (some d) c = true ↔
      (c.lastOrder = none ∨ ∃ t, c.lastOrder = some t ∧ t ≤ d) := by
  cases h : c.lastOrder with
  | none => simp [custLastOrderPasses, h]
  | some t => simp [custLastOrderPasses, h, not_lt]

/-- C8: the minimum-order-count filter passes a record exactly when the
lifetime order count is at least the parsed integer, and a non-numeric filter
input (one `parseInt` turns into `NaN`) is treated as an absent filter:
every record passes, and no error is raised (the predicate is total). -/
theorem min_order_count_filter_characterisation (s : String) (c : CustNode) :
    (jsParseInt s = none → custMinOrderPasses s c = true) ∧
    (∀ k : Int, jsParseInt s = some k →
      (custMinOrderPasses s c = true ↔ k ≤ (c.numberOfOrders : Int))) := by
  constructor
  · intro hn
    unfold custMinOrderPasses
    by_cases hs : s = ""
    · simp [hs]
    · simp [hs, hn]
  · intro k hk
    have hs : s ≠ "" := by
      intro he
      have h0 : jsParseInt "" = none := by decide
      rw [he, h0] at hk
      cases hk
    unfold custMinOrderPasses
    simp [hs, hk, not_lt]

theorem min_order_count_filter_characterisation_witness :
    custMinOrderPasses "abc" demoCustomer = true ∧
    (custMinOrderPasses "5" demoCustomer = true ↔
      (5 : Int) ≤ (demoCustomer.numberOfOrders : Int)) :=
  ⟨(min_order_count_filter_characterisation "abc" demoCustomer).1 (by decide),
   (min_order_count_filter_characterisation "5" demoCustomer).2 5 (by decide)⟩

/-- C9: both sort steps are stable: for every selected (key, direction) the
subsequence of records whose sort projection equals that of any fixed record
is exactly the same — in the same order — before and after sorting, so
equal-key records keep the relative order of the filtered-but-unsorted
sequence. -/
theorem sort_stability (sel : List String) (l : List OrderNode) (x : OrderNode)
    (csel : List String) (cl : List CustNode) (y : CustNode) :
    (orderSort sel l).filter (fun z => orderKeyEq sel z x) =
      l.filter (fun z => orderKeyEq sel z x) ∧
    (custSort csel cl).filter (fun z => custKeyEq csel z y) =
      cl.filter (fun z => custKeyEq csel z y) :=
  ⟨orderSort_filter_keyEq sel l x, custSort_filter_keyEq csel cl y⟩

/-- C10: filtering and sorting are idempotent.  Re-applying the order engine
to its own successful visible output reproduces that output, and re-applying
the customer engine to its own visible output is the identity. -/
theorem apply_idempotent (q : OrderQuery) (B out : List OrderNode)
    (cq : CustQuery) (CB : List CustNode) :
    (applyOrders q B = .ok out → applyOrders q out = .ok out) ∧
    applyCustomers cq (applyCustomers cq CB) = applyCustomers cq CB :=
  ⟨applyOrders_restart q B out, applyCustomers_restart cq CB⟩

theorem apply_idempotent_witness :
    applyOrders demoSortQuery [demoOrderWithItems] = .ok [demoOrderWithItems] ∧
    applyCustomers demoCustQuery (applyCustomers demoCustQuery [demoCustomer]) =
      applyCustomers demoCustQuery [demoCustomer] :=
  ⟨(apply_idempotent demoSortQuery [demoOrderWithItems] [demoOrderWithItems]
      demoCustQuery [demoCustomer]).1 (by rfl),
   (apply_idempotent demoSortQuery [demoOrderWithItems] [demoOrderWithItems]
      demoCustQuery [demoCustomer]).2⟩

end Dashboard
